import Mathlib

/-!
Shallow embedding of the event-sourced consistency layer of the shop system:
the transactional outbox of the order service, the transactional inbox of the
payment service, and the two saga coordination flows (choreography and
orchestration).  Python functions are translated into pure Lean functions;
session/transaction state is passed explicitly as record values; exceptions
become explicit `raised` flags on result records.  Machine-level details:
monetary amounts (Python floats summed from request items) are modelled as
rationals; timestamps are natural numbers threaded in as parameters.
-/

set_option maxRecDepth 4096

/-! ## SHA-256 (hashlib.sha256(...).hexdigest() as used by `_generate_message_id`)

Bytes are `Nat` values below 256; 32-bit words are `Nat` values reduced
modulo 2^32 after every arithmetic step. -/

def rotr32 (n x : Nat) : Nat :=
  ((x >>> n) ||| (x <<< (32 - n))) % 4294967296

def sha256smallSigma0 (x : Nat) : Nat :=
  (rotr32 7 x) ^^^ (rotr32 18 x) ^^^ (x >>> 3)

def sha256smallSigma1 (x : Nat) : Nat :=
  (rotr32 17 x) ^^^ (rotr32 19 x) ^^^ (x >>> 10)

def sha256bigSigma0 (x : Nat) : Nat :=
  (rotr32 2 x) ^^^ (rotr32 13 x) ^^^ (rotr32 22 x)

def sha256bigSigma1 (x : Nat) : Nat :=
  (rotr32 6 x) ^^^ (rotr32 11 x) ^^^ (rotr32 25 x)

def sha256K : List Nat :=
  [1116352408, 1899447441, 3049323471, 3921009573, 961987163,
   1508970993, 2453635748, 2870763221, 3624381080, 310598401,
   607225278, 1426881987, 1925078388, 2162078206, 2614888103,
   3248222580, 3835390401, 4022224774, 264347078, 604807628,
   770255983, 1249150122, 1555081692, 1996064986, 2554220882,
   2821834349, 2952996808, 3210313671, 3336571891, 3584528711,
   113926993, 338241895, 666307205, 773529912, 1294757372,
   1396182291, 1695183700, 1986661051, 2177026350, 2456956037,
   2730485921, 2820302411, 3259730800, 3345764771, 3516065817,
   3600352804, 4094571909, 275423344, 430227734, 506948616,
   659060556, 883997877, 958139571, 1322822218, 1537002063,
   1747873779, 1955562222, 2024104815, 2227730452, 2361852424,
   2428436474, 2756734187, 3204031479, 3329325298]

def sha256initH : List Nat :=
  [1779033703, 3144134277, 1013904242, 2773480762,
   1359893119, 2600822924, 528734635, 1541459225]

def iterateN (f : α → α) : Nat → α → α
  | 0, a => a
  | n + 1, a => iterateN f n (f a)

def sha256extendStep (w : List Nat) : List Nat :=
  let i := w.length
  w ++ [(sha256smallSigma1 (w.getD (i - 2) 0) + w.getD (i - 7) 0 +
         sha256smallSigma0 (w.getD (i - 15) 0) + w.getD (i - 16) 0) % 4294967296]

def sha256schedule (w : List Nat) : List Nat :=
  iterateN sha256extendStep 48 w

def sha256round (st : List Nat) (k : Nat) (w : Nat) : List Nat :=
  let a := st.getD 0 0
  let b := st.getD 1 0
  let c := st.getD 2 0
  let d := st.getD 3 0
  let e := st.getD 4 0
  let f := st.getD 5 0
  let g := st.getD 6 0
  let h := st.getD 7 0
  let ch := (e &&& f) ^^^ ((4294967295 ^^^ e) &&& g)
  let temp1 := (h + sha256bigSigma1 e + ch + k + w) % 4294967296
  let maj := (a &&& b) ^^^ (a &&& c) ^^^ (b &&& c)
  let temp2 := (sha256bigSigma0 a + maj) % 4294967296
  [(temp1 + temp2) % 4294967296, a, b, c, (d + temp1) % 4294967296, e, f, g]

def sha256compress (h : List Nat) (chunk : List Nat) : List Nat :=
  let w := sha256schedule chunk
  let st := List.foldl (fun s kw => sha256round s kw.1 kw.2) h (List.zip sha256K w)
  List.zipWith (fun x y => (x + y) % 4294967296) h st

def bytesToWords : List Nat → List Nat
  | b0 :: b1 :: b2 :: b3 :: rest =>
      (b0 * 16777216 + b1 * 65536 + b2 * 256 + b3) :: bytesToWords rest
  | _ => []

def sha256chunks : Nat → List Nat → List Nat → List Nat
  | 0, h, _ => h
  | n + 1, h, ws => sha256chunks n (sha256compress h (ws.take 16)) (ws.drop 16)

def len64be (n : Nat) : List Nat :=
  [n / 72057594037927936 % 256, n / 281474976710656 % 256,
   n / 1099511627776 % 256, n / 4294967296 % 256,
   n / 16777216 % 256, n / 65536 % 256, n / 256 % 256, n % 256]

def sha256pad (msg : List Nat) : List Nat :=
  msg ++ 128 :: List.replicate ((119 - msg.length % 64) % 64) 0 ++ len64be (msg.length * 8)

def hexChar (n : Nat) : Char :=
  if n < 10 then Char.ofNat (48 + n) else Char.ofNat (87 + n)

def wordHex (w : Nat) : List Char :=
  [hexChar (w / 268435456 % 16), hexChar (w / 16777216 % 16),
   hexChar (w / 1048576 % 16), hexChar (w / 65536 % 16),
   hexChar (w / 4096 % 16), hexChar (w / 256 % 16),
   hexChar (w / 16 % 16), hexChar (w % 16)]

def sha256Hex (msg : List Nat) : String :=
  let padded := sha256pad msg
  let ws := bytesToWords padded
  let hf := sha256chunks (ws.length / 16) sha256initH ws
  String.mk (hf.foldr (fun w acc => wordHex w ++ acc) [])

def utf8EncodeChar (n : Nat) : List Nat :=
  if n < 128 then [n]
  else if n < 2048 then [192 + n / 64, 128 + n % 64]
  else if n < 65536 then [224 + n / 4096, 128 + n / 64 % 64, 128 + n % 64]
  else [240 + n / 262144, 128 + n / 4096 % 64, 128 + n / 64 % 64, 128 + n % 64]

def utf8Bytes (s : String) : List Nat :=
  s.data.foldr (fun c acc => utf8EncodeChar c.toNat ++ acc) []

/-- Model of `_generate_message_id(message_body, routing_key)` of the payment service:
the SHA-256 hex digest of `routing_key ++ ":" ++ message_body` (UTF-8 bytes). -/
def generate_message_id (message_body : String) (routing_key : String) : String :=
  sha256Hex (utf8Bytes (routing_key ++ ":" ++ message_body))

/-! ## Payment service data model (`services/payment_service/app/database.py`)

`PaymentORM` stores `amount` as `str(amount)`; the stringification of the
amount carries the same information as the rational itself, so the field is
kept as the rational.  The `payments.id` / `inbox_messages.id` autoincrement
columns play no role in any behaviour modelled here and are omitted. -/

structure OrderCreatedEvent where
  order_id : Int
  total_amount : Rat
  customer_email : String
deriving DecidableEq

structure InboxRow where
  message_id : String
  event_type : String
  payload : OrderCreatedEvent
  status : String
  processed_at : Option Nat
deriving DecidableEq

structure PaymentRow where
  order_id : Int
  payment_id : String
  amount : Rat
  status : String
  customer_email : String
deriving DecidableEq

structure PayDB where
  inbox : List InboxRow
  payments : List PaymentRow
deriving DecidableEq

inductive PayEventPayload where
  | processed (order_id : Int) (payment_id : String) (amount : Rat) (customer_email : String)
  | failed (order_id : Int) (reason : String)
deriving DecidableEq

/-- Model of `process_payment(order_id, amount)`: the simulated gateway call.  It always
succeeds; `payment_id` is built from the order id and the current clock
(`int(asyncio.get_event_loop().time())`), threaded in as `now`.  It is called
by the orchestration endpoint `/payments/process`; the choreography consumer
never reaches it (see `process_payment_with_inbox`). -/
structure GatewayResult where
  payment_id : String
  order_id : Int
  amount : Rat
  status : String
  success : Bool
deriving DecidableEq

def process_payment (order_id : Int) (amount : Rat) (now : Nat) : GatewayResult :=
  { payment_id := "pay_" ++ toString order_id ++ "_" ++ toString now
    order_id := order_id
    amount := amount
    status := "completed"
    success := true }

/-- Model of `_is_message_processed(message_id, session)`: `scalar_one_or_none` on the
unique `message_id` column, here the first (and by the unique index only)
matching row. -/
def is_message_processed (message_id : String) (db : PayDB) : Bool :=
  match db.inbox.find? (fun r => r.message_id == message_id) with
  | some existing => existing.status == "processed"
  | none => false

/-- Result of one `_process_payment_with_inbox` call: the database after the
call, the events published to the bus by the call, and whether the call
re-raised an exception to its caller. -/
structure PayOutcome where
  db : PayDB
  published : List (String × PayEventPayload)
  raised : Bool
deriving DecidableEq

/-- Model of `_process_payment_with_inbox(event, message_id, session)`.

`_is_message_processed` runs a SELECT on the session, and a SQLAlchemy 2.0
session (the service builds it with `async_sessionmaker`) auto-begins a
transaction on that first statement.  Hence for every message that is not
already `processed`, the subsequent `async with session.begin():` raises
`InvalidRequestError` (a transaction is already begun on this session)
*before* anything is inserted: no inbox row, no payment row, no publish.
Inside the `except` handler the second `async with session.begin():` raises
the same error, which the nested bare `except` swallows, so the inbox row is
never marked `failed` either; the original error is then re-raised.  When
the session closes at the caller, the auto-begun read-only transaction is
rolled back, so the store is unchanged on every path.  The only branch that
completes normally is the early idempotent return for an already-`processed`
row; the gateway call and the `publish_event` calls further down the
function body are unreachable. -/
def process_payment_with_inbox (event : OrderCreatedEvent) (message_id : String)
    (db : PayDB) : PayOutcome :=
  if is_message_processed message_id db then
    { db := db, published := [], raised := false }
  else
    { db := db, published := [], raised := true }

/-- One delivery handled by `consume_order_created`: `event` is
`json.loads(body)`; the `try`/`except` around the call sits inside
`message.process()`, so every processing error is caught and printed and the
context manager exits cleanly — the message is always positively
acknowledged. -/
structure ConsumeOutcome where
  db : PayDB
  published : List (String × PayEventPayload)
  raised : Bool
  acked : Bool
deriving DecidableEq

def consume_one (body routing_key : String) (event : OrderCreatedEvent)
    (db : PayDB) : ConsumeOutcome :=
  let mid := generate_message_id body routing_key
  let r := process_payment_with_inbox event mid db
  { db := r.db, published := r.published, raised := r.raised, acked := true }

/-! ## Order service data model (`services/order_service/app/db.py`, `schemas.py`)

Autoincrement primary keys are modelled with explicit `nextOrderId` /
`nextOutboxId` counters in the store; `server_default=func.now()` timestamps
are threaded in as the `now` parameter. -/

structure OrderItem where
  product_id : Int
  quantity : Nat
  price : Rat
deriving DecidableEq

structure CreateOrderRequest where
  customer_email : String
  items : List OrderItem
deriving DecidableEq

structure OrderRow where
  id : Nat
  customer_email : String
  total_amount : Rat
  status : String
  created_at : Nat
deriving DecidableEq

structure OrderEventPayload where
  order_id : Nat
  customer_email : String
  total_amount : Rat
deriving DecidableEq

structure OutboxRow where
  id : Nat
  event_type : String
  payload : OrderEventPayload
  status : String
  created_at : Nat
  sent_at : Option Nat
deriving DecidableEq

structure OrderDB where
  orders : List OrderRow
  outbox : List OutboxRow
  nextOrderId : Nat
  nextOutboxId : Nat
deriving DecidableEq

/-- The `Order` response model returned by both endpoints. -/
structure OrderResp where
  id : Nat
  customer_email : String
  total_amount : Rat
  status : String
  created_at : Nat
deriving DecidableEq

def orderTotal (req : CreateOrderRequest) : Rat :=
  (req.items.map (fun i => i.price * (i.quantity : Rat))).sum

def orderRespOf (o : OrderRow) : OrderResp :=
  { id := o.id, customer_email := o.customer_email, total_amount := o.total_amount,
    status := o.status, created_at := o.created_at }

/-- Model of `POST /orders` (choreography, `create_order`): one transaction inserts the
order row with status `pending` and the `order_created` outbox row. -/
def create_order (req : CreateOrderRequest) (now : Nat) (db : OrderDB) :
    OrderDB × OrderResp :=
  let total := orderTotal req
  let order : OrderRow :=
    { id := db.nextOrderId, customer_email := req.customer_email,
      total_amount := total, status := "pending", created_at := now }
  let payload : OrderEventPayload :=
    { order_id := order.id, customer_email := order.customer_email,
      total_amount := total }
  let outboxMsg : OutboxRow :=
    { id := db.nextOutboxId, event_type := "order_created", payload := payload,
      status := "pending", created_at := now, sent_at := none }
  ({ orders := db.orders ++ [order], outbox := db.outbox ++ [outboxMsg],
     nextOrderId := db.nextOrderId + 1, nextOutboxId := db.nextOutboxId + 1 },
   orderRespOf order)

/-- Outcome of the synchronous `http_client.post(PAYMENT_SERVICE_URL ++
"/payments/process")` call, as seen by the `try` block:
`transportError` — the post itself raised `httpx.HTTPError` (unreachable /
timeout); `statusError` — `raise_for_status()` raised `httpx.HTTPStatusError`
(a subclass of `httpx.HTTPError`); `ok success` — 2xx JSON response with the
given `success` flag. -/
inductive PaymentCall where
  | transportError
  | statusError
  | ok (success : Bool)
deriving DecidableEq

def setOrderStatus (oid : Nat) (st : String) (db : OrderDB) : OrderDB :=
  { db with orders := db.orders.map (fun o =>
      if o.id == oid then { o with status := st } else o) }

/-- Result of one `POST /orders/orchestrated` request.  `raisedStatus` is the
status code of a propagated `HTTPException` (FastAPI turns it into that HTTP
response; it is *not* an `httpx.HTTPError`, so the surrounding `try` does not
catch it); `notificationAttempted` says whether the notification POST was
issued at all. -/
structure OrchOutcome where
  db : OrderDB
  notificationAttempted : Bool
  raisedStatus : Option Nat
  returned : Option OrderResp
deriving DecidableEq

/-- Model of `POST /orders/orchestrated` (`create_order_orchestrated`).

Step 1 commits the `pending` order.  Step 2 calls the payment collaborator:
`success=false` ⇒ a compensating transaction sets the order `cancelled` and
`HTTPException(402)` propagates; any `httpx.HTTPError` (transport, timeout or
`raise_for_status`) is caught and replaced by `payment_data = success:true,
payment_id:"skipped"`.  Step 3 posts the notification best-effort (`notifOk`
says whether it succeeded; either way execution continues).  Step 4 sets the
order `confirmed` and returns it. -/
def create_order_orchestrated (req : CreateOrderRequest) (payCall : PaymentCall)
    (notifOk : Bool) (now : Nat) (db : OrderDB) : OrchOutcome :=
  let total := orderTotal req
  let oid := db.nextOrderId
  let db1 : OrderDB :=
    { orders := db.orders ++
        [{ id := oid, customer_email := req.customer_email, total_amount := total,
           status := "pending", created_at := now }],
      outbox := db.outbox,
      nextOrderId := db.nextOrderId + 1, nextOutboxId := db.nextOutboxId }
  match payCall with
  | .ok false =>
      { db := setOrderStatus oid "cancelled" db1,
        notificationAttempted := false,
        raisedStatus := some 402,
        returned := none }
  | _ =>
      let db3 := setOrderStatus oid "confirmed" db1
      let _ := notifOk
      { db := db3,
        notificationAttempted := true,
        raisedStatus := none,
        returned := match db3.orders.find? (fun o => o.id == oid) with
          | some o => some (orderRespOf o)
          | none => none }

/-! ## Outbox relay (`services/order_service/app/outbox_publisher.py`) -/

def routingKeyFor (m : OutboxRow) : String :=
  if m.event_type == "order_created" then "order.created" else "events.generic"

/-- The `SELECT ... WHERE status = pending` of one relay cycle (no `ORDER BY`
clause appears in the query; rows come back in table order). -/
def relaySelected (db : OrderDB) : List OutboxRow :=
  db.outbox.filter (fun m => m.status == "pending")

/-- The per-message loop of one cycle: publish, then stage the
`status = sent` update in the session.  `pubOk` says whether
`exchange.publish` succeeds for a given record; the first failing publish
raises, which abandons the loop (staged updates die with the uncommitted
session).  Returns the staged record ids, the envelopes actually put on the
bus (publishes before the failure did happen), and whether the whole loop ran
to completion. -/
structure BatchResult where
  stagedIds : List Nat
  published : List (String × OrderEventPayload)
  ok : Bool
deriving DecidableEq

def publishBatch (pubOk : OutboxRow → Bool) : List OutboxRow → BatchResult
  | [] => { stagedIds := [], published := [], ok := true }
  | m :: rest =>
      if pubOk m then
        let r := publishBatch pubOk rest
        { stagedIds := m.id :: r.stagedIds,
          published := (routingKeyFor m, m.payload) :: r.published,
          ok := r.ok }
      else { stagedIds := [], published := [], ok := false }

structure RelayOutcome where
  db : OrderDB
  published : List (String × OrderEventPayload)
  errored : Bool
deriving DecidableEq

/-- One cycle of `publish_outbox_messages`: select the pending rows, run the
publish/stage loop, then commit once (the staged updates become visible) —
or, when a publish raised, close the session without committing, leaving the
store exactly as it was. -/
def publish_outbox_messages_cycle (pubOk : OutboxRow → Bool) (db : OrderDB) :
    RelayOutcome :=
  let msgs := relaySelected db
  let r := publishBatch pubOk msgs
  if r.ok then
    { db := { db with outbox := db.outbox.map (fun m =>
        if r.stagedIds.contains m.id then { m with status := "sent" } else m) },
      published := r.published,
      errored := false }
  else
    { db := db, published := r.published, errored := true }

/-! ## General list lemmas used by the claim proofs -/

theorem find?_of_filter_eq_cons {α : Type _} {p : α → Bool} {r : α} {rs : List α} :
    ∀ {l : List α}, l.filter p = r :: rs → l.find? p = some r := by
  intro l
  induction l with
  | nil => intro h; simp at h
  | cons a l ih =>
    intro h
    by_cases hpa : p a = true
    · rw [List.filter_cons_of_pos hpa] at h
      injection h with h1 _
      subst h1
      simp [List.find?_cons, hpa]
    · rw [List.filter_cons_of_neg hpa] at h
      rw [List.find?_cons, Bool.of_not_eq_true hpa]
      exact ih h

theorem iterateN_fixed {α : Type _} {f : α → α} {a : α} (h : f a = a) :
    ∀ n, iterateN f n a = a := by
  intro n
  induction n with
  | zero => rfl
  | succ n ih => rw [iterateN, h]; exact ih

/-! ## Branch lemmas for `process_payment_with_inbox` -/

theorem process_noop {e : OrderCreatedEvent} {mid : String} {db : PayDB}
    (h : is_message_processed mid db = true) :
    process_payment_with_inbox e mid db =
      { db := db, published := [], raised := false } := by
  simp [process_payment_with_inbox, h]

theorem process_raises {e : OrderCreatedEvent} {mid : String} {db : PayDB}
    (h : is_message_processed mid db = false) :
    process_payment_with_inbox e mid db =
      { db := db, published := [], raised := true } := by
  simp [process_payment_with_inbox, h]

/-! ## Example values used by witnesses and counterexamples -/

def exampleEvent : OrderCreatedEvent := ⟨7, 1000, "a@x.com"⟩

def emptyPayDB : PayDB := ⟨[], []⟩

/-- C1 (code bug): delivering a fresh `order.created` envelope twice commits
nothing at all.  Each delivery dies at `session.begin()` with
`InvalidRequestError` (the dedup SELECT auto-began a transaction on the same
session), writes neither inbox row nor payment row, publishes nothing, and
is acked anyway — so the double delivery that the claim (and the service's
own docstrings) say yields exactly one payment record actually yields
zero. -/
theorem fresh_envelope_double_delivery_commits_nothing :
    (consume_one "b" "order.created" exampleEvent
        (consume_one "b" "order.created" exampleEvent emptyPayDB).db).db.payments = [] ∧
    (consume_one "b" "order.created" exampleEvent emptyPayDB).db = emptyPayDB ∧
    (consume_one "b" "order.created" exampleEvent emptyPayDB).raised = true ∧
    (consume_one "b" "order.created" exampleEvent emptyPayDB).acked = true :=
  ⟨rfl, rfl, rfl, rfl⟩

/-- C3 (code bug): the inbox transaction never commits.  At a fresh
message_id the call raises (`session.begin()` on the auto-begun session,
before any insert) and leaves the store untouched: no pending inbox row, no
payment row, no processed mark, nothing published — and the payment service
has no outbox table in which a follow-on record could be written. -/
theorem inbox_transaction_never_commits :
    process_payment_with_inbox exampleEvent "m0" emptyPayDB =
      { db := emptyPayDB, published := [], raised := true } :=
  rfl

def pendingRowEx : InboxRow := ⟨"m3", "order_created", exampleEvent, "pending", none⟩

def dbPendingEx : PayDB := ⟨[pendingRowEx], []⟩

/-- Counterexample to C9 as stated: reprocessing a message whose inbox row is
`pending` does raise, but the row is *not* set to `failed` — it stays
`pending`.  No second insert ever happens (the error comes from
`session.begin()`), so the unique constraint is never exercised, and the
handler's own marking transaction raises the same error and is swallowed. -/
theorem pending_row_not_marked_failed_cx :
    (process_payment_with_inbox exampleEvent "m3" dbPendingEx).raised = true ∧
    (process_payment_with_inbox exampleEvent "m3" dbPendingEx).db.inbox.map
      (fun r => r.status) = ["pending"] := by
  decide

/-- C9 amended: for a message whose message_id has a non-`processed` inbox
row (`failed` or `pending`), re-invoking the consumer's processing always
raises — from `session.begin()` on the auto-begun session, before any second
insert could touch the unique index — no payment is ever committed, and the
store is left completely unchanged (the row keeps its previous status, it is
not set to `failed`); any number of re-invocations leaves the store fixed,
so such a message can never be successfully reprocessed. -/
theorem non_processed_inbox_row_blocks_reprocessing :
    ∀ (e : OrderCreatedEvent) (mid : String) (db : PayDB) (r : InboxRow),
      db.inbox.filter (fun x => x.message_id == mid) = [r] → r.status ≠ "processed" →
      (process_payment_with_inbox e mid db).raised = true ∧
      (process_payment_with_inbox e mid db).db = db ∧
      ∀ n, iterateN (fun s => (process_payment_with_inbox e mid s).db) n db = db := by
  intro e mid db r hf hs
  have hfind : db.inbox.find? (fun x => x.message_id == mid) = some r :=
    find?_of_filter_eq_cons hf
  have h : is_message_processed mid db = false := by
    rw [is_message_processed, hfind]
    simpa using hs
  refine ⟨by rw [process_raises h], by rw [process_raises h], ?_⟩
  intro n
  exact iterateN_fixed (by rw [process_raises h]) n

/-- Witness for the amended C9 on a concrete store holding one `pending`
row. -/
theorem non_processed_inbox_row_blocks_reprocessing_witness :
    (dbPendingEx.inbox.filter (fun x => x.message_id == "m3") = [pendingRowEx] ∧
     pendingRowEx.status ≠ "processed") ∧
    (process_payment_with_inbox exampleEvent "m3" dbPendingEx).raised = true ∧
    (process_payment_with_inbox exampleEvent "m3" dbPendingEx).db = dbPendingEx ∧
    iterateN (fun s => (process_payment_with_inbox exampleEvent "m3" s).db) 2 dbPendingEx =
      dbPendingEx :=
  have h := non_processed_inbox_row_blocks_reprocessing exampleEvent "m3" dbPendingEx
    pendingRowEx (by decide) (by decide)
  ⟨⟨by decide, by decide⟩, h.1, h.2.1, h.2.2 2⟩

def midEx : String := generate_message_id "b1" "order.created"

def dbMidPending : PayDB := ⟨[⟨midEx, "order_created", exampleEvent, "pending", none⟩], []⟩

/-- Counterexample to C4 as stated: on a delivery whose processing raises,
the inbox row is *not* marked `failed` — the handler's `session.begin()`
raises the same `InvalidRequestError` and is swallowed, so the pre-existing
`pending` row keeps its status — and the message is positively acknowledged,
not negatively acknowledged/redelivered as claimed. -/
theorem failed_processing_message_still_acked_cx :
    (consume_one "b1" "order.created" exampleEvent dbMidPending).raised = true ∧
    (consume_one "b1" "order.created" exampleEvent dbMidPending).acked = true ∧
    (consume_one "b1" "order.created" exampleEvent dbMidPending).db.inbox.map
      (fun r => r.status) = ["pending"] := by
  have h : is_message_processed (generate_message_id "b1" "order.created")
      dbMidPending = false := by
    simp [is_message_processed, dbMidPending, midEx, List.find?_cons]
  refine ⟨?_, rfl, ?_⟩
  · simp only [consume_one]
    rw [process_raises h]
  · simp only [consume_one]
    rw [process_raises h]
    rfl

/-- C4 amended: when inbox processing raises, nothing has been written (the
error occurs at `session.begin()` before any insert, and the auto-begun read
transaction is rolled back when the session closes), the handler's attempt
to mark the inbox row `failed` in a separate transaction fails the same way
and is silently swallowed — so the store, including the row's status, is
completely unchanged; the re-raised error is caught by the consumer loop
inside the `message.process()` scope, so the message is positively
acknowledged, never negatively acknowledged or redelivered. -/
theorem failed_processing_leaves_row_and_acks :
    ∀ (e : OrderCreatedEvent) (body rk : String) (db : PayDB),
      is_message_processed (generate_message_id body rk) db = false →
      (consume_one body rk e db).raised = true ∧
      (consume_one body rk e db).db = db ∧
      (consume_one body rk e db).acked = true := by
  intro e body rk db h
  refine ⟨?_, ?_, rfl⟩ <;>
    · simp only [consume_one]
      rw [process_raises h]

/-- Witness for the amended C4 at the concrete pending-row store. -/
theorem failed_processing_leaves_row_and_acks_witness :
    is_message_processed (generate_message_id "b1" "order.created") dbMidPending = false ∧
    (consume_one "b1" "order.created" exampleEvent dbMidPending).raised = true ∧
    (consume_one "b1" "order.created" exampleEvent dbMidPending).db = dbMidPending ∧
    (consume_one "b1" "order.created" exampleEvent dbMidPending).acked = true :=
  have h : is_message_processed (generate_message_id "b1" "order.created")
      dbMidPending = false := by
    simp [is_message_processed, dbMidPending, midEx, List.find?_cons]
  have hc := failed_processing_leaves_row_and_acks exampleEvent "b1" "order.created"
    dbMidPending h
  ⟨h, hc.1, hc.2.1, hc.2.2⟩

set_option maxRecDepth 100000 in
/-- FIPS 180-4 test vector: SHA-256 of the empty message. -/
theorem sha256Hex_empty_vector :
    sha256Hex [] = "e3b0c44298fc1c149afbf4c8996fb92427ae41e4649b934ca495991b7852b855" := by
  decide

set_option maxRecDepth 100000 in
/-- FIPS 180-4 test vector: SHA-256 of "abc". -/
theorem sha256Hex_abc_vector :
    sha256Hex (utf8Bytes "abc") =
      "ba7816bf8f01cfea414140de5dae2223b00361a396177a9cb410ff61f20015ad" := by
  decide

/-- C8: the message_id computed by the payment consumer is exactly the SHA-256
hex digest of `routing_key ++ ":" ++ body`, a deterministic function of the
routing key and raw body alone (no transport-assigned identifier occurs in
it): byte-identical deliveries always map to the same message_id. -/
theorem message_id_is_sha256_of_routing_key_and_body :
    (∀ (body rk : String),
      generate_message_id body rk = sha256Hex (utf8Bytes (rk ++ ":" ++ body))) ∧
    (∀ (b1 r1 b2 r2 : String), b1 = b2 → r1 = r2 →
      generate_message_id b1 r1 = generate_message_id b2 r2) := by
  refine ⟨fun body rk => rfl, fun b1 r1 b2 r2 hb hr => ?_⟩
  rw [hb, hr]

/-- Witness for C8 at a concrete routing key and body. -/
theorem message_id_is_sha256_of_routing_key_and_body_witness :
    generate_message_id "hello" "order.created" =
      sha256Hex (utf8Bytes ("order.created" ++ ":" ++ "hello")) ∧
    generate_message_id "hello" "order.created" =
      generate_message_id "hello" "order.created" :=
  ⟨message_id_is_sha256_of_routing_key_and_body.1 "hello" "order.created",
   message_id_is_sha256_of_routing_key_and_body.2 "hello" "order.created" "hello"
     "order.created" rfl rfl⟩

theorem map_set_status_fresh {l : List OrderRow} {oid : Nat} {em : String} {ta : Rat}
    {st0 st : String} {ca : Nat}
    (h : ∀ x ∈ l, (x.id == oid) = false) :
    (l ++ [OrderRow.mk oid em ta st0 ca]).map
        (fun x => if x.id == oid then { x with status := st } else x) =
      l ++ [OrderRow.mk oid em ta st ca] := by
  rw [List.map_append]
  have h1 : l.map (fun x => if x.id == oid then { x with status := st } else x) = l := by
    conv_rhs => rw [← List.map_id l]
    exact List.map_congr_left fun a ha => by simp [h a ha]
  rw [h1]
  simp

/-- C2: when the payment collaborator answers `success=false`, the
orchestrated endpoint sets the freshly created order to `cancelled` in a
compensating transaction, raises `HTTPException(402)` to the caller instead
of returning an order, attempts no notification call, and never runs the
confirmation step. -/
theorem orchestrated_declined_payment_compensates :
    ∀ (req : CreateOrderRequest) (notifOk : Bool) (now : Nat) (db : OrderDB),
      (∀ o ∈ db.orders, o.id < db.nextOrderId) →
      create_order_orchestrated req (PaymentCall.ok false) notifOk now db =
        { db := ⟨db.orders ++
              [⟨db.nextOrderId, req.customer_email, orderTotal req, "cancelled", now⟩],
            db.outbox, db.nextOrderId + 1, db.nextOutboxId⟩,
          notificationAttempted := false,
          raisedStatus := some 402,
          returned := none } := by
  intro req notifOk now db h
  have hne : ∀ x ∈ db.orders, (x.id == db.nextOrderId) = false := fun x hx => by
    simpa using Nat.ne_of_lt (h x hx)
  simp only [create_order_orchestrated, setOrderStatus]
  simp only [map_set_status_fresh hne]

def exampleReq : CreateOrderRequest := ⟨"a@x.com", [⟨1, 2, 500⟩]⟩

def emptyOrderDB : OrderDB := ⟨[], [], 1, 1⟩

/-- Witness for C2 on an empty store and a one-item request. -/
theorem orchestrated_declined_payment_compensates_witness :
    (∀ o ∈ emptyOrderDB.orders, o.id < emptyOrderDB.nextOrderId) ∧
    create_order_orchestrated exampleReq (PaymentCall.ok false) true 0 emptyOrderDB =
      { db := ⟨[⟨1, "a@x.com", orderTotal exampleReq, "cancelled", 0⟩], [], 2, 1⟩,
        notificationAttempted := false, raisedStatus := some 402, returned := none } :=
  ⟨by simp [emptyOrderDB],
   orchestrated_declined_payment_compensates exampleReq true 0 emptyOrderDB
     (by simp [emptyOrderDB])⟩

/-- C6: when the payment collaborator is unreachable (an `httpx` transport
error or timeout), the orchestrated saga does not abort: the error is caught
and logged, payment is treated as successful, the notification step still
runs, no error reaches the caller, and the order ends `confirmed`. -/
theorem orchestrated_unreachable_payment_proceeds :
    ∀ (req : CreateOrderRequest) (notifOk : Bool) (now : Nat) (db : OrderDB),
      (∀ o ∈ db.orders, o.id < db.nextOrderId) →
      create_order_orchestrated req PaymentCall.transportError notifOk now db =
        { db := ⟨db.orders ++
              [⟨db.nextOrderId, req.customer_email, orderTotal req, "confirmed", now⟩],
            db.outbox, db.nextOrderId + 1, db.nextOutboxId⟩,
          notificationAttempted := true,
          raisedStatus := none,
          returned := some ⟨db.nextOrderId, req.customer_email, orderTotal req,
            "confirmed", now⟩ } := by
  intro req notifOk now db h
  have hne : ∀ x ∈ db.orders, (x.id == db.nextOrderId) = false := fun x hx => by
    simpa using Nat.ne_of_lt (h x hx)
  have hfind : List.find? (fun o => o.id == db.nextOrderId)
      (db.orders ++ [OrderRow.mk db.nextOrderId req.customer_email (orderTotal req)
        "confirmed" now]) =
      some (OrderRow.mk db.nextOrderId req.customer_email (orderTotal req)
        "confirmed" now) := by
    rw [List.find?_append, List.find?_eq_none.mpr (fun x hx => by simp [hne x hx])]
    simp
  simp only [create_order_orchestrated, setOrderStatus]
  simp only [map_set_status_fresh hne, hfind, orderRespOf]

/-- Witness for C6 on an empty store. -/
theorem orchestrated_unreachable_payment_proceeds_witness :
    (∀ o ∈ emptyOrderDB.orders, o.id < emptyOrderDB.nextOrderId) ∧
    create_order_orchestrated exampleReq PaymentCall.transportError true 0 emptyOrderDB =
      { db := ⟨[⟨1, "a@x.com", orderTotal exampleReq, "confirmed", 0⟩], [], 2, 1⟩,
        notificationAttempted := true, raisedStatus := none,
        returned := some ⟨1, "a@x.com", orderTotal exampleReq, "confirmed", 0⟩ } :=
  ⟨by simp [emptyOrderDB],
   orchestrated_unreachable_payment_proceeds exampleReq true 0 emptyOrderDB
     (by simp [emptyOrderDB])⟩

/-- C10: the orchestrated endpoint never writes to the outbox — on every
payment/notification outcome the outbox list is exactly the one it started
with — while the choreography endpoint `create_order` appends exactly one
`order_created` outbox record in the same transaction as the order row. -/
theorem orchestrated_endpoint_leaves_outbox_unchanged :
    ∀ (req : CreateOrderRequest) (payCall : PaymentCall) (notifOk : Bool) (now : Nat)
      (db : OrderDB),
      (create_order_orchestrated req payCall notifOk now db).db.outbox = db.outbox ∧
      (create_order req now db).1.outbox = db.outbox ++
        [⟨db.nextOutboxId, "order_created",
          ⟨db.nextOrderId, req.customer_email, orderTotal req⟩, "pending", now, none⟩] := by
  intro req payCall notifOk now db
  refine ⟨?_, rfl⟩
  cases payCall with
  | transportError => rfl
  | statusError => rfl
  | ok b => cases b with
    | true => rfl
    | false => rfl

theorem publishBatch_ok (pubOk : OutboxRow → Bool) :
    ∀ l, (publishBatch pubOk l).ok = l.all pubOk := by
  intro l
  induction l with
  | nil => rfl
  | cons m rest ih =>
    by_cases hm : pubOk m = true
    · simp [publishBatch, hm, ih]
    · simp [publishBatch, Bool.of_not_eq_true hm]

theorem publishBatch_all {pubOk : OutboxRow → Bool} :
    ∀ {l : List OutboxRow}, (∀ m ∈ l, pubOk m = true) →
      publishBatch pubOk l =
        ⟨l.map (fun m => m.id), l.map (fun m => (routingKeyFor m, m.payload)), true⟩ := by
  intro l
  induction l with
  | nil => intro _; rfl
  | cons m rest ih =>
    intro h
    rw [publishBatch, if_pos (h m (List.mem_cons_self m rest)),
      ih (fun x hx => h x (List.mem_cons.mpr (Or.inr hx)))]
    rfl

/-- C5: in one relay cycle, when every pending record publishes successfully,
all of them — and nothing else — are flipped to `sent` by the single commit
at the end of the batch; and when some publish in the batch fails, the cycle
ends in the error branch and the store is left completely unchanged (records
already published in that batch stay `pending`). -/
theorem relay_batch_single_commit_or_abort :
    (∀ (db : OrderDB) (pubOk : OutboxRow → Bool),
      (db.outbox.map (fun m => m.id)).Nodup →
      (∀ m ∈ relaySelected db, pubOk m = true) →
      publish_outbox_messages_cycle pubOk db =
        ⟨{ db with outbox := db.outbox.map (fun m =>
            if m.status == "pending" then { m with status := "sent" } else m) },
         (relaySelected db).map (fun m => (routingKeyFor m, m.payload)),
         false⟩) ∧
    (∀ (db : OrderDB) (pubOk : OutboxRow → Bool),
      (∃ m ∈ relaySelected db, pubOk m = false) →
      (publish_outbox_messages_cycle pubOk db).db = db ∧
      (publish_outbox_messages_cycle pubOk db).errored = true) := by
  constructor
  · intro db pubOk hnd hall
    have hmap : db.outbox.map (fun m =>
        if ((relaySelected db).map (fun m => m.id)).contains m.id then
          { m with status := "sent" } else m) =
        db.outbox.map (fun m =>
          if m.status == "pending" then { m with status := "sent" } else m) := by
      refine List.map_congr_left fun m hm => ?_
      by_cases hp : (m.status == "pending") = true
      · have hmem : m ∈ relaySelected db := List.mem_filter.mpr ⟨hm, hp⟩
        have hid : ((relaySelected db).map (fun m => m.id)).contains m.id = true := by
          simp only [List.contains_eq_any_beq, List.any_eq_true]
          exact ⟨m.id, List.mem_map_of_mem (fun m => m.id) hmem, by simp⟩
        rw [hid, hp]
      · have hid : ((relaySelected db).map (fun m => m.id)).contains m.id = false := by
          by_contra hc
          have hc' : ((relaySelected db).map (fun m => m.id)).contains m.id = true :=
            Bool.of_not_eq_false hc
          simp only [List.contains_eq_any_beq, List.any_eq_true, List.mem_map] at hc'
          obtain ⟨i, ⟨m2, hm2, hm2i⟩, hbeq⟩ := hc'
          have hii : m.id = i := by simpa using hbeq
          have hm2mem : m2 ∈ db.outbox := List.mem_of_mem_filter hm2
          have : m2 = m := List.inj_on_of_nodup_map hnd hm2mem hm (by rw [hm2i, ← hii])
          subst this
          have hm2f : m2 ∈ db.outbox.filter (fun m => m.status == "pending") := hm2
          exact hp (List.mem_filter.mp hm2f).2
        rw [hid, Bool.of_not_eq_true hp]
    simp only [publish_outbox_messages_cycle, publishBatch_all hall]
    rw [hmap]
    rw [if_pos trivial]
  · intro db pubOk hex
    have hok : (publishBatch pubOk (relaySelected db)).ok = false := by
      rw [publishBatch_ok]
      refine List.all_eq_false.mpr ?_
      obtain ⟨m, hm, hf⟩ := hex
      exact ⟨m, hm, by simp [hf]⟩
    constructor <;> simp [publish_outbox_messages_cycle, hok]

def paylEx : OrderEventPayload := ⟨7, "a@x.com", 1000⟩

def outOfOrderDB : OrderDB :=
  ⟨[], [⟨1, "order_created", paylEx, "pending", 10, none⟩,
        ⟨2, "order_created", paylEx, "pending", 5, none⟩], 1, 3⟩

/-- Witness for C5: both halves at a concrete two-record outbox, once with an
always-successful publisher and once with an always-failing one. -/
theorem relay_batch_single_commit_or_abort_witness :
    ((outOfOrderDB.outbox.map (fun m => m.id)).Nodup ∧
     (∀ m ∈ relaySelected outOfOrderDB, (fun _ => true) m = true) ∧
     publish_outbox_messages_cycle (fun _ => true) outOfOrderDB =
       ⟨{ outOfOrderDB with outbox := outOfOrderDB.outbox.map (fun m =>
           if m.status == "pending" then { m with status := "sent" } else m) },
        (relaySelected outOfOrderDB).map (fun m => (routingKeyFor m, m.payload)),
        false⟩) ∧
    ((∃ m ∈ relaySelected outOfOrderDB, (fun _ => false) m = false) ∧
     (publish_outbox_messages_cycle (fun _ => false) outOfOrderDB).db = outOfOrderDB ∧
     (publish_outbox_messages_cycle (fun _ => false) outOfOrderDB).errored = true) :=
  have hex : ∃ m ∈ relaySelected outOfOrderDB, (fun (_ : OutboxRow) => false) m = false :=
    ⟨⟨1, "order_created", paylEx, "pending", 10, none⟩, by decide, rfl⟩
  ⟨⟨by decide, fun m _ => rfl,
    relay_batch_single_commit_or_abort.1 outOfOrderDB (fun _ => true) (by decide)
      (fun m _ => rfl)⟩,
   ⟨hex,
    (relay_batch_single_commit_or_abort.2 outOfOrderDB (fun _ => false) hex).1,
    (relay_batch_single_commit_or_abort.2 outOfOrderDB (fun _ => false) hex).2⟩⟩

/-- Counterexample to C7 as stated: the relay query has no ORDER BY clause, so
with a table whose insertion order disagrees with `created_at` order the
selected batch is not sorted oldest-first. -/
theorem relay_selection_not_sorted_by_created_at_cx :
    ¬ List.Pairwise (fun a b => a.created_at ≤ b.created_at)
        (relaySelected outOfOrderDB) := by
  decide

/-- C7 amended: the records selected by a relay cycle are exactly those with
status `pending`, kept in table (insertion) order — no `created_at` ordering
is applied. -/
theorem relay_selection_exactly_pending_table_order :
    (∀ (db : OrderDB) (m : OutboxRow),
      m ∈ relaySelected db ↔ m ∈ db.outbox ∧ m.status = "pending") ∧
    (∀ db : OrderDB, (relaySelected db).Sublist db.outbox) := by
  constructor
  · intro db m
    constructor
    · intro hm
      have hm' : m ∈ db.outbox.filter (fun x => x.status == "pending") := hm
      exact ⟨(List.mem_filter.mp hm').1, by simpa using (List.mem_filter.mp hm').2⟩
    · intro ⟨h1, h2⟩
      exact List.mem_filter.mpr ⟨h1, by simp [h2]⟩
  · intro db
    exact List.filter_sublist db.outbox
